import Mathlib

/-!
Shallow embedding of the port programming, telemetry, mirroring and
port-registry logic of the fboss agent sources (BcmPort, SaiPortManager,
BaseWedgeI2CBus, MirrorTunnel), together with theorems settling the
specification claims about them.

Machine integers of the source are embedded as `Nat`/`Int`; fallible code
returns `Except` or carries an `Option FbossErrorKind`; the
`STAT_UNINITIALIZED` sentinel of `HwPortStats` fields is embedded as
`Option` (`none` = uninitialized).
-/

namespace FbossModel

instance {e a : Type} [DecidableEq e] [DecidableEq a] : DecidableEq (Except e a)
  | Except.error x, Except.error y =>
      if h : x = y then Decidable.isTrue (by rw [h])
      else Decidable.isFalse (fun hc => h (Except.error.inj hc))
  | Except.error _, Except.ok _ => Decidable.isFalse (fun hc => Except.noConfusion hc)
  | Except.ok _, Except.error _ => Decidable.isFalse (fun hc => Except.noConfusion hc)
  | Except.ok x, Except.ok y =>
      if h : x = y then Decidable.isTrue (by rw [h])
      else Decidable.isFalse (fun hc => h (Except.ok.inj hc))

/-- The `cfg::PortSpeed` enumeration (values used by BcmPort). -/
inductive PortSpeed
  | DEFAULT
  | GIGE
  | XG
  | TWENTYG
  | TWENTYFIVEG
  | FORTYG
  | FIFTYG
  | HUNDREDG
  deriving DecidableEq, Fintype, Repr

/-- The `TransmitterTechnology` enumeration. -/
inductive TransmitterTechnology
  | COPPER
  | OPTICAL
  | UNKNOWN
  deriving DecidableEq, Fintype, Repr

/-- The `opennsl_port_if_t` interface modes appearing in `kPortTypeMapping`. -/
inductive OpennslPortIf
  | CR
  | CR2
  | CR4
  | CAUI
  | XLAUI
  | SFI
  | GMII
  deriving DecidableEq, Fintype, Repr

/-- Error taxonomy of the spec; the fboss sources throw `FbossError` with a
message, classified by the spec into these kinds. -/
inductive FbossErrorKind
  | UnsupportedConfiguration
  | DuplicateResource
  | MissingResource
  deriving DecidableEq, Fintype, Repr

/-- The static nested map `kPortTypeMapping` from BcmPort.cpp: speed to
transmitter technology to broadcom interface mode.  `none` embeds a key
absent from the nested `std::map` (an `at` call on it throws). -/
def kPortTypeMapping : PortSpeed → TransmitterTechnology → Option OpennslPortIf
  | PortSpeed.HUNDREDG, TransmitterTechnology.COPPER => some OpennslPortIf.CR4
  | PortSpeed.HUNDREDG, TransmitterTechnology.OPTICAL => some OpennslPortIf.CAUI
  | PortSpeed.HUNDREDG, TransmitterTechnology.UNKNOWN => some OpennslPortIf.CAUI
  | PortSpeed.FIFTYG, TransmitterTechnology.COPPER => some OpennslPortIf.CR2
  | PortSpeed.FIFTYG, TransmitterTechnology.OPTICAL => some OpennslPortIf.CAUI
  | PortSpeed.FIFTYG, TransmitterTechnology.UNKNOWN => some OpennslPortIf.CR2
  | PortSpeed.FORTYG, TransmitterTechnology.COPPER => some OpennslPortIf.CR4
  | PortSpeed.FORTYG, TransmitterTechnology.OPTICAL => some OpennslPortIf.XLAUI
  | PortSpeed.FORTYG, TransmitterTechnology.UNKNOWN => some OpennslPortIf.XLAUI
  | PortSpeed.TWENTYFIVEG, TransmitterTechnology.COPPER => some OpennslPortIf.CR
  | PortSpeed.TWENTYFIVEG, TransmitterTechnology.OPTICAL => some OpennslPortIf.CAUI
  | PortSpeed.TWENTYFIVEG, TransmitterTechnology.UNKNOWN => some OpennslPortIf.CR
  | PortSpeed.TWENTYG, TransmitterTechnology.COPPER => some OpennslPortIf.CR
  | PortSpeed.TWENTYG, TransmitterTechnology.UNKNOWN => some OpennslPortIf.CR
  | PortSpeed.XG, TransmitterTechnology.COPPER => some OpennslPortIf.CR
  | PortSpeed.XG, TransmitterTechnology.OPTICAL => some OpennslPortIf.SFI
  | PortSpeed.XG, TransmitterTechnology.UNKNOWN => some OpennslPortIf.CR
  | PortSpeed.GIGE, TransmitterTechnology.COPPER => some OpennslPortIf.GMII
  | PortSpeed.GIGE, TransmitterTechnology.UNKNOWN => some OpennslPortIf.GMII
  | _, _ => none

/-- `BcmPort::getDesiredInterfaceMode` restricted to its lookup step: the
source does `kPortTypeMapping.at(speed).at(transmitterTech)` inside a
try/catch whose catch throws `FbossError` ("Unsupported speed ... or
transmitter technology ..."); both `out_of_range` paths land in the same
catch. -/
def getDesiredInterfaceMode (speed : PortSpeed) (tech : TransmitterTechnology) :
    Except FbossErrorKind OpennslPortIf :=
  match kPortTypeMapping speed tech with
  | some mode => Except.ok mode
  | none => Except.error FbossErrorKind.UnsupportedConfiguration

/-- The three `HwPortStats` fields involved in the non-pause-discard
derivation of `BcmPort::updateStats`.  `none` embeds
`hardware_stats_constants::STAT_UNINITIALIZED()` (the code compares fields
against that sentinel before using them). -/
structure HwPortStatsNPD where
  inDiscards : Option Int
  inPause : Option Int
  inNonPauseDiscards : Option Int
  deriving DecidableEq, Repr

/-- Modelled from the spec: the stats snapshot a freshly created port starts
from.  `BcmPortStats(int numUnicastQueues)` (in src) leaves the scalar
`HwPortStats` fields at their defaults; the spec's "0 if uninitialized"
seeding and the sentinel comparisons in `updateStats` identify that default
as `STAT_UNINITIALIZED`, embedded as `none`. -/
def initialPortStats : HwPortStatsNPD :=
  { inDiscards := none, inPause := none, inNonPauseDiscards := none }

/-- One poll of the non-pause-discard logic of `BcmPort::updateStats`
(lines computing `inNonPauseDiscards_`): given the lossy-MMU flag
(`isMmuLossy`), the previous snapshot and the freshly read cumulative
`inDiscards`/`inPause` hardware values, produce the new snapshot.  When the
guard (lossy mode, both previous values initialized, both deltas
non-negative) fails, the new snapshot's `inNonPauseDiscards` keeps its
uninitialized default. -/
def updateNonPauseDiscards (mmuLossy : Bool) (last : HwPortStatsNPD)
    (curDiscards curPause : Int) : HwPortStatsNPD :=
  match mmuLossy, last.inDiscards, last.inPause with
  | true, some lastDiscards, some lastPause =>
      let inPauseSincePrev : Int := curPause - lastPause
      let inDiscardsSincePrev : Int := curDiscards - lastDiscards
      if 0 ≤ inPauseSincePrev ∧ 0 ≤ inDiscardsSincePrev then
        let inNonPauseDiscardsSincePrev : Int :=
          max 0 (inDiscardsSincePrev - inPauseSincePrev)
        { inDiscards := some curDiscards
          inPause := some curPause
          inNonPauseDiscards :=
            some (last.inNonPauseDiscards.getD 0 + inNonPauseDiscardsSincePrev) }
      else
        { inDiscards := some curDiscards
          inPause := some curPause
          inNonPauseDiscards := none }
  | _, _, _ =>
      { inDiscards := some curDiscards
        inPause := some curPause
        inNonPauseDiscards := none }

/-- `MirrorDirection` of BcmPort. -/
inductive MirrorDirection
  | INGRESS
  | EGRESS
  deriving DecidableEq, Repr

/-- `MirrorAction` of BcmPort. -/
inductive MirrorAction
  | START
  | STOP
  deriving DecidableEq, Repr

/-- One call of `BcmMirror::applyPortMirrorAction` issued through
`BcmPort::applyMirrorAction`. -/
structure MirrorEvent where
  name : String
  action : MirrorAction
  direction : MirrorDirection
  deriving DecidableEq, Repr

/-- The `ingressMirror_` / `egressMirror_` fields of a BcmPort. -/
structure PortMirrorState where
  ingressMirror : Option String
  egressMirror : Option String
  deriving DecidableEq, Repr

/-- `BcmPort::applyMirrorAction`: a no-op when no session name is present,
otherwise one action against the named session. -/
def applyMirrorAction (mirrorName : Option String) (action : MirrorAction)
    (direction : MirrorDirection) : List MirrorEvent :=
  match mirrorName with
  | none => []
  | some n => [{ name := n, action := action, direction := direction }]

/-- Read the per-direction mirror field (the conditional expression
`direction == INGRESS ? ingressMirror_ : egressMirror_`). -/
def getMirror (m : PortMirrorState) (direction : MirrorDirection) : Option String :=
  match direction with
  | MirrorDirection.INGRESS => m.ingressMirror
  | MirrorDirection.EGRESS => m.egressMirror

/-- Assign the per-direction mirror field. -/
def setMirror (m : PortMirrorState) (direction : MirrorDirection)
    (v : Option String) : PortMirrorState :=
  match direction with
  | MirrorDirection.INGRESS => { m with ingressMirror := v }
  | MirrorDirection.EGRESS => { m with egressMirror := v }

/-- `BcmPort::updateMirror`: STOP against the currently recorded session,
record the new binding, then START against the newly recorded session.
Returns the new mirror state and the hardware actions in issue order. -/
def updateMirror (m : PortMirrorState) (swMirrorName : Option String)
    (direction : MirrorDirection) : PortMirrorState × List MirrorEvent :=
  let stopEvents := applyMirrorAction (getMirror m direction) MirrorAction.STOP direction
  let m1 := setMirror m direction swMirrorName
  let startEvents := applyMirrorAction (getMirror m1 direction) MirrorAction.START direction
  (m1, stopEvents ++ startEvents)

/-- One hardware write issued by the BcmPort programming path.  Calls whose
bodies are outside this part of the sources (`setFEC`, `setPause`,
`setTxSetting`, `setSflowRates`, `setLoopbackMode`, `setPortResource`) are
embedded as one opaque write event at their call site. -/
inductive HwWriteEvent
  | vlanAdd (vlan : Nat) (tagged : Bool)
  | vlanMemberSet
  | ingressVlanSet (vlan : Nat)
  | portResourceSet
  | interfaceModeSet (mode : OpennslPortIf)
  | speedSet (speed : PortSpeed)
  | fecSet
  | mirror (e : MirrorEvent)
  | pauseSet
  | txSettingSet
  | sflowRatesSet
  | loopbackModeSet
  | statEnableSet (enabledFlag : Bool)
  | portEnableSet (enabledFlag : Bool)
  deriving DecidableEq, Repr

/-- The software `Port` object (`swPort`) fields the programming path reads:
admin/oper state, configured speed, VLAN membership (vlan id, tagged flag),
ingress VLAN, per-direction mirror names and the display name. -/
structure SwPort where
  id : Nat
  name : String
  speed : PortSpeed
  portUp : Bool
  vlans : List (Nat × Bool)
  ingressVlan : Nat
  ingressMirror : Option String
  egressMirror : Option String
  deriving DecidableEq, Repr

/-- Platform collaborators of a BcmPort: `opennsl_port_speed_max`, the
transceiver-path technology query and `shouldUsePortResourceAPIs`. -/
structure PlatformModel where
  maxSpeed : PortSpeed
  platformTech : TransmitterTechnology
  shouldUsePortResourceAPIs : Bool
  deriving DecidableEq, Repr

/-- Hardware-visible and cached per-port state the embedded BcmPort calls
read and write: the admin enable bit (`opennsl_port_enable_get` / `_set`),
current speed (`opennsl_port_speed_get`), current interface mode
(`opennsl_port_interface_get`), current untagged VLAN
(`opennsl_port_untagged_vlan_get`), the mirror fields and the memoized
`transmitterTechnology_`. -/
structure PortModelState where
  hwEnabled : Bool
  hwSpeed : PortSpeed
  hwInterfaceMode : OpennslPortIf
  hwIngressVlan : Nat
  mirrors : PortMirrorState
  transmitterTechnology : TransmitterTechnology
  deriving DecidableEq, Repr

/-- `BcmPort::getTransmitterTechnology`: return the memoized value when it
is not UNKNOWN; otherwise hard-code COPPER for fixed-backplane ("fab")
ports, else query the platform, memoizing the result. -/
def getTransmitterTechnology (plat : PlatformModel) (name : String)
    (s : PortModelState) : TransmitterTechnology × PortModelState :=
  if s.transmitterTechnology ≠ TransmitterTechnology.UNKNOWN then
    (s.transmitterTechnology, s)
  else
    let t := if String.startsWith name "fab" then TransmitterTechnology.COPPER
             else plat.platformTech
    (t, { s with transmitterTechnology := t })

/-- `BcmPort::getDesiredPortSpeed`: the configured speed, or the hardware
maximum when the config holds the DEFAULT sentinel. -/
def getDesiredPortSpeed (plat : PlatformModel) (sw : SwPort) : PortSpeed :=
  if sw.speed = PortSpeed.DEFAULT then plat.maxSpeed else sw.speed

/-- `BcmPort::setInterfaceMode`: resolve the desired mode from speed and
technology, read back the current mode, and write only when the current
mode differs or the port is down. -/
def setInterfaceMode (plat : PlatformModel) (sw : SwPort) (s : PortModelState) :
    Except FbossErrorKind (PortModelState × List HwWriteEvent) :=
  let desiredPortSpeed := getDesiredPortSpeed plat sw
  let tt := getTransmitterTechnology plat sw.name s
  match getDesiredInterfaceMode desiredPortSpeed tt.1 with
  | Except.error e => Except.error e
  | Except.ok desiredMode =>
      if tt.2.hwInterfaceMode ≠ desiredMode ∨ sw.portUp = false then
        Except.ok ({ tt.2 with hwInterfaceMode := desiredMode },
                   [HwWriteEvent.interfaceModeSet desiredMode])
      else
        Except.ok (tt.2, [])

/-- `BcmPort::setSpeed`: read back the current speed; only when the port is
down or the current speed differs from the desired speed, set the interface
mode and then call `opennsl_port_speed_set`; otherwise issue nothing. -/
def setSpeed (plat : PlatformModel) (sw : SwPort) (s : PortModelState) :
    Except FbossErrorKind (PortModelState × List HwWriteEvent) :=
  let desiredPortSpeed := getDesiredPortSpeed plat sw
  if sw.portUp = false ∨ s.hwSpeed ≠ desiredPortSpeed then
    match setInterfaceMode plat sw s with
    | Except.error e => Except.error e
    | Except.ok (s1, evs) =>
        Except.ok ({ s1 with hwSpeed := desiredPortSpeed },
                   evs ++ [HwWriteEvent.speedSet desiredPortSpeed])
  else
    Except.ok (s, [])

/-- `BcmPort::setIngressVlan`: read the current untagged VLAN and write only
when it differs from the configured one. -/
def setIngressVlan (sw : SwPort) (s : PortModelState) :
    PortModelState × List HwWriteEvent :=
  if sw.ingressVlan ≠ s.hwIngressVlan then
    ({ s with hwIngressVlan := sw.ingressVlan },
     [HwWriteEvent.ingressVlanSet sw.ingressVlan])
  else
    (s, [])

/-- `BcmPort::setFEC` call site; body outside these sources, embedded as one
opaque write. -/
def setFEC (s : PortModelState) : PortModelState × List HwWriteEvent :=
  (s, [HwWriteEvent.fecSet])

/-- `BcmPort::setPortResource` call site; body outside these sources. -/
def setPortResource (s : PortModelState) : PortModelState × List HwWriteEvent :=
  (s, [HwWriteEvent.portResourceSet])

/-- `BcmPort::setPause` call site; body outside these sources. -/
def setPause (s : PortModelState) : PortModelState × List HwWriteEvent :=
  (s, [HwWriteEvent.pauseSet])

/-- `BcmPort::setTxSetting` call site; body outside these sources. -/
def setTxSetting (s : PortModelState) : PortModelState × List HwWriteEvent :=
  (s, [HwWriteEvent.txSettingSet])

/-- `BcmPort::setSflowRates` call site (the sampling-rate programming); body
outside these sources. -/
def setSflowRates (s : PortModelState) : PortModelState × List HwWriteEvent :=
  (s, [HwWriteEvent.sflowRatesSet])

/-- `BcmPort::setLoopbackMode` call site; body outside these sources. -/
def setLoopbackMode (s : PortModelState) : PortModelState × List HwWriteEvent :=
  (s, [HwWriteEvent.loopbackModeSet])

/-- `BcmPort::updateMirror` acting on the port state, with its hardware
actions wrapped as write events. -/
def portUpdateMirror (s : PortModelState) (swMirrorName : Option String)
    (direction : MirrorDirection) : PortModelState × List HwWriteEvent :=
  let r := updateMirror s.mirrors swMirrorName direction
  ({ s with mirrors := r.1 }, r.2.map HwWriteEvent.mirror)

/-- Tail of `BcmPort::program` after the speed block: mirror updates for
both directions, then pause, Tx settings, sFlow rates and loopback mode, in
source order. -/
def programTail (sw : SwPort) (s : PortModelState) :
    PortModelState × List HwWriteEvent :=
  let r3 := portUpdateMirror s sw.ingressMirror MirrorDirection.INGRESS
  let r4 := portUpdateMirror r3.1 sw.egressMirror MirrorDirection.EGRESS
  let r5 := setPause r4.1
  let r6 := setTxSetting r5.1
  let r7 := setSflowRates r6.1
  let r8 := setLoopbackMode r7.1
  (r8.1, r3.2 ++ r4.2 ++ r5.2 ++ r6.2 ++ r7.2 ++ r8.2)

/-- `BcmPort::program`: ingress VLAN, then either the port-resource API path
or `setSpeed` followed by `setFEC`, then the mirror/pause/Tx/sFlow/loopback
tail, accumulating the hardware writes in issue order. -/
def program (plat : PlatformModel) (sw : SwPort) (s : PortModelState) :
    Except FbossErrorKind (PortModelState × List HwWriteEvent) :=
  let r1 := setIngressVlan sw s
  if plat.shouldUsePortResourceAPIs then
    let r2 := setPortResource r1.1
    let rt := programTail sw r2.1
    Except.ok (rt.1, r1.2 ++ r2.2 ++ rt.2)
  else
    match setSpeed plat sw r1.1 with
    | Except.error e => Except.error e
    | Except.ok (sa, ea) =>
        let rb := setFEC sa
        let rt := programTail sw rb.1
        Except.ok (rt.1, r1.2 ++ (ea ++ rb.2) ++ rt.2)

/-- `BcmPort::enable`: read the hardware admin state and return immediately
(no writes) when already enabled; otherwise add the port to its VLANs, set
VLAN filtering, run `program`, enable counter collection, and finally flip
admin-up. -/
def enable (plat : PlatformModel) (sw : SwPort) (s : PortModelState) :
    Except FbossErrorKind (PortModelState × List HwWriteEvent) :=
  if s.hwEnabled then
    Except.ok (s, [])
  else
    let vlanEvents := sw.vlans.map (fun v => HwWriteEvent.vlanAdd v.1 v.2)
    match program plat sw s with
    | Except.error e => Except.error e
    | Except.ok (s1, progEvents) =>
        Except.ok ({ s1 with hwEnabled := true },
          vlanEvents ++ [HwWriteEvent.vlanMemberSet] ++ progEvents ++
            [HwWriteEvent.statEnableSet true, HwWriteEvent.portEnableSet true])

/-- Recognizer for the disruptive `opennsl_port_speed_set` write. -/
def isSpeedWrite : HwWriteEvent → Bool
  | HwWriteEvent.speedSet _ => true
  | _ => false

/-- Recognizer for the disruptive `opennsl_port_interface_set` write. -/
def isInterfaceModeWrite : HwWriteEvent → Bool
  | HwWriteEvent.interfaceModeSet _ => true
  | _ => false

/-- A `SaiPortHandle`: the SAI port's adapter key plus the dependent bridge
port and queue sub-resources. -/
structure SaiPortHandle where
  adapterKey : Nat
  bridgePort : Nat
  queues : List Nat
  deriving DecidableEq, Repr

/-- The `SaiPortManager` registry: `handles_` keyed by logical `PortID`, and
the reverse index `concurrentIndices_->portIds` keyed by SAI adapter key. -/
structure SaiPortManagerState where
  handles : List (Nat × SaiPortHandle)
  portIds : List (Nat × Nat)
  deriving DecidableEq, Repr

/-- `SaiPortManager::getPortHandle` (via `getPortHandleImpl`): look the
logical port id up in `handles_`. -/
def getPortHandle (st : SaiPortManagerState) (swId : Nat) : Option SaiPortHandle :=
  (st.handles.find? (fun kv => kv.1 == swId)).map (fun kv => kv.2)

/-- Backend resource creations performed by `SaiPortManager::addPort`, in
issue order. -/
inductive AddEvent
  | createPort
  | createBridgePort
  | createQueues
  deriving DecidableEq, Repr

/-- Teardown steps performed by `SaiPortManager::removePort`, in issue
order. -/
inductive RemoveEvent
  | eraseReverseIndex (adapterKey : Nat)
  | eraseHandle (swId : Nat)
  deriving DecidableEq, Repr

/-- `SaiPortManager::addPort`: throw (DuplicateResource, state untouched,
nothing created) when a handle already exists; otherwise create the SAI
port, bridge port and queues, then insert into `handles_` and the reverse
index.  The first component embeds a thrown `FbossError` (state at the
throw point is returned alongside). -/
def addPort (st : SaiPortManagerState) (swId adapterKey bridgePort : Nat)
    (queues : List Nat) :
    Option FbossErrorKind × SaiPortManagerState × List AddEvent :=
  match getPortHandle st swId with
  | some _ => (some FbossErrorKind.DuplicateResource, st, [])
  | none =>
      let handle : SaiPortHandle :=
        { adapterKey := adapterKey, bridgePort := bridgePort, queues := queues }
      (none,
       { handles := st.handles ++ [(swId, handle)],
         portIds := st.portIds ++ [(adapterKey, swId)] },
       [AddEvent.createPort, AddEvent.createBridgePort, AddEvent.createQueues])

/-- `SaiPortManager::removePort`: throw (MissingResource) when no handle
exists; otherwise erase the reverse-index entry for the handle's adapter
key first, and only then erase (release) the handle. -/
def removePort (st : SaiPortManagerState) (swId : Nat) :
    Option FbossErrorKind × SaiPortManagerState × List RemoveEvent :=
  match getPortHandle st swId with
  | none => (some FbossErrorKind.MissingResource, st, [])
  | some handle =>
      let st1 : SaiPortManagerState :=
        { st with portIds := st.portIds.filter (fun kv => kv.1 != handle.adapterKey) }
      let st2 : SaiPortManagerState :=
        { st1 with handles := st1.handles.filter (fun kv => kv.1 != swId) }
      (none, st2,
       [RemoveEvent.eraseReverseIndex handle.adapterKey, RemoveEvent.eraseHandle swId])

/-- The `I2cError` exception type of the transceiver access path. -/
inductive I2cError
  | readFailure
  deriving DecidableEq, Repr

/-- `ModulePresence` of the QSFP service. -/
inductive ModulePresence
  | UNKNOWN
  | PRESENT
  | ABSENT
  deriving DecidableEq, Repr

/-- `BaseWedgeI2CBus::isPresent`: attempt a one-byte `moduleRead` of the
QSFP address and downgrade an `I2cError` to `false`; any successful read
means present.  `moduleRead` is the bus environment, mapping a module
number to the outcome of the speculative read. -/
def isPresent (moduleRead : Nat → Except I2cError Nat) (module : Nat) : Bool :=
  match moduleRead module with
  | Except.error _ => false
  | Except.ok _ => true

/-- `BaseWedgeI2CBus::scanPresence`: for each entry of the presence map,
probe module `key + 1` and record ABSENT on `I2cError`, PRESENT on
success. -/
def scanPresence (moduleRead : Nat → Except I2cError Nat)
    (presences : List (Nat × ModulePresence)) : List (Nat × ModulePresence) :=
  presences.map (fun p =>
    match moduleRead (p.1 + 1) with
    | Except.error _ => (p.1, ModulePresence.ABSENT)
    | Except.ok _ => (p.1, ModulePresence.PRESENT))

/-- Run a sequence of atomic writer steps over the published-snapshot cell. -/
def runSteps (steps : List (HwPortStatsNPD → HwPortStatsNPD))
    (s : HwPortStatsNPD) : HwPortStatsNPD :=
  steps.foldl (fun a f => f a) s

/-- The shared-memory footprint of one `BcmPort::updateStats` poll: the poll
performs `buildSteps` writer-local steps (each builds the stack-local
`curPortStats` and leaves the published `lastPortStats_` cell untouched,
hence `id` on the cell) followed by a single publication step, the
one locked assignment `*lastPortStats_.wlock() = BcmPortStats(curPortStats,
now)`, which replaces the cell with the fully built snapshot. -/
def pollWriterSteps (buildSteps : Nat) (newSnap : HwPortStatsNPD) :
    List (HwPortStatsNPD → HwPortStatsNPD) :=
  List.replicate buildSteps id ++ [fun _ => newSnap]

/-- What `BcmPort::getPortStats` (a locked read of the cell) observes when a
reader is interleaved after the writer's first `k` steps of a poll that
replaces `oldSnap` by `newSnap`. -/
def observeAt (buildSteps : Nat) (newSnap oldSnap : HwPortStatsNPD) (k : Nat) :
    HwPortStatsNPD :=
  runSteps ((pollWriterSteps buildSteps newSnap).take k) oldSnap

/-- `MirrorTunnel` of Mirror.h; IPs and MACs are embedded as their numeric
values, `TunnelUdpPorts` as the (src, dst) pair. -/
structure MirrorTunnel where
  srcIp : Nat
  dstIp : Nat
  srcMac : Nat
  dstMac : Nat
  udpPorts : Option (Nat × Nat)
  ttl : Nat
  greProtocol : Nat
  deriving DecidableEq, Repr

/-- `MirrorTunnel::operator==`: compares srcIp, dstIp, srcMac, dstMac, ttl
and greProtocol, exactly the fields named in the source. -/
def MirrorTunnel.eq (a b : MirrorTunnel) : Bool :=
  a.srcIp == b.srcIp && a.dstIp == b.dstIp && a.srcMac == b.srcMac &&
    a.dstMac == b.dstMac && a.ttl == b.ttl && a.greProtocol == b.greProtocol

/-- `MirrorTunnel::operator<`: lexicographic comparison of
`std::tie(srcIp, dstIp, srcMac, dstMac, ttl, greProtocol)`. -/
def MirrorTunnel.lt (a b : MirrorTunnel) : Bool :=
  if a.srcIp ≠ b.srcIp then decide (a.srcIp < b.srcIp)
  else if a.dstIp ≠ b.dstIp then decide (a.dstIp < b.dstIp)
  else if a.srcMac ≠ b.srcMac then decide (a.srcMac < b.srcMac)
  else if a.dstMac ≠ b.dstMac then decide (a.dstMac < b.dstMac)
  else if a.ttl ≠ b.ttl then decide (a.ttl < b.ttl)
  else if a.greProtocol ≠ b.greProtocol then decide (a.greProtocol < b.greProtocol)
  else false

/-- Concrete platform fixture: no port-resource APIs, optical transceiver
path, 100G maximum speed. -/
def plat0 : PlatformModel :=
  { maxSpeed := PortSpeed.HUNDREDG,
    platformTech := TransmitterTechnology.OPTICAL,
    shouldUsePortResourceAPIs := false }

/-- Concrete software-port fixture: a down 25G port on VLAN 2000 with no
mirrors. -/
def sw0 : SwPort :=
  { id := 1, name := "eth1/1/1", speed := PortSpeed.TWENTYFIVEG,
    portUp := false, vlans := [(2000, false)], ingressVlan := 2000,
    ingressMirror := none, egressMirror := none }

/-- Concrete hardware-state fixture: admin-disabled, default speed, CAUI
mode, VLAN 1, memoized copper technology. -/
def st0 : PortModelState :=
  { hwEnabled := false, hwSpeed := PortSpeed.DEFAULT,
    hwInterfaceMode := OpennslPortIf.CAUI, hwIngressVlan := 1,
    mirrors := { ingressMirror := none, egressMirror := none },
    transmitterTechnology := TransmitterTechnology.COPPER }

/-- The hardware state after `enable plat0 sw0 st0`. -/
def st1 : PortModelState :=
  { hwEnabled := true, hwSpeed := PortSpeed.TWENTYFIVEG,
    hwInterfaceMode := OpennslPortIf.CR, hwIngressVlan := 2000,
    mirrors := { ingressMirror := none, egressMirror := none },
    transmitterTechnology := TransmitterTechnology.COPPER }

/-- The hardware writes issued by `enable plat0 sw0 st0`. -/
def enableTrace0 : List HwWriteEvent :=
  match enable plat0 sw0 st0 with
  | Except.ok r => r.2
  | Except.error _ => []

/-- C1: on each poll, in lossy MMU mode with initialized previous
inDiscards/inPause and non-negative deltas, the cumulative nonPauseDiscards
equals the previous cumulative value (or 0 if uninitialized) plus
max(0, delta of discards minus delta of pause); and for inDiscards
[100, 130], inPause [100, 110] across two polls from the initial snapshot,
the cumulative value is 0 after poll 1 and 20 after poll 2. -/
theorem nonPauseDiscards_spec :
    (∀ (last : HwPortStatsNPD) (ld lp curD curP : Int),
        last.inDiscards = some ld → last.inPause = some lp →
        0 ≤ curD - ld → 0 ≤ curP - lp →
        (updateNonPauseDiscards true last curD curP).inNonPauseDiscards =
          some (last.inNonPauseDiscards.getD 0 +
            max 0 ((curD - ld) - (curP - lp)))) ∧
    ((updateNonPauseDiscards true initialPortStats 100 100).inNonPauseDiscards.getD 0
        = 0 ∧
      (updateNonPauseDiscards true
          (updateNonPauseDiscards true initialPortStats 100 100)
          130 110).inNonPauseDiscards.getD 0 = 20) := by
  refine ⟨?_, by decide, by decide⟩
  intro last ld lp curD curP hd hp hdd hpp
  obtain ⟨d, p, npd⟩ := last
  simp only at hd hp
  subst hd hp
  simp only [updateNonPauseDiscards]
  rw [if_pos ⟨hpp, hdd⟩]

/-- C1 witness: the general clause applied at a concrete previous snapshot
(5, 3, cumulative 7) and current readings (10, 4): new cumulative 11. -/
theorem nonPauseDiscards_spec_witness :
    (updateNonPauseDiscards true
        { inDiscards := some 5, inPause := some 3, inNonPauseDiscards := some 7 }
        10 4).inNonPauseDiscards = some 11 :=
  (nonPauseDiscards_spec.1
      { inDiscards := some 5, inPause := some 3, inNonPauseDiscards := some 7 }
      5 3 10 4 rfl rfl (by decide) (by decide)).trans (by decide)

/-- C2 counterexample: the pair (TWENTYG, OPTICAL) is absent from the table
while the per-speed unknown-technology default for TWENTYG exists (CR), yet
getDesiredInterfaceMode fails with UnsupportedConfiguration instead of
falling back to that default. -/
theorem interfaceMode_no_fallback_counterexample :
    kPortTypeMapping PortSpeed.TWENTYG TransmitterTechnology.OPTICAL = none ∧
    kPortTypeMapping PortSpeed.TWENTYG TransmitterTechnology.UNKNOWN =
      some OpennslPortIf.CR ∧
    getDesiredInterfaceMode PortSpeed.TWENTYG TransmitterTechnology.OPTICAL =
      Except.error FbossErrorKind.UnsupportedConfiguration := by decide

/-- C2 (amended): getDesiredInterfaceMode is an exact lookup on the
(speed, technology) pair: a mapped pair is returned as-is, an unmapped pair
fails with UnsupportedConfiguration (no fallback to the unknown-technology
entry); the unknown-technology entry is registered for every supported
speed, i.e. for every speed having any entry at all. -/
theorem getDesiredInterfaceMode_exact_lookup :
    (∀ (s : PortSpeed) (t : TransmitterTechnology) (m : OpennslPortIf),
        kPortTypeMapping s t = some m → getDesiredInterfaceMode s t = Except.ok m) ∧
    (∀ (s : PortSpeed) (t : TransmitterTechnology),
        kPortTypeMapping s t = none →
          getDesiredInterfaceMode s t =
            Except.error FbossErrorKind.UnsupportedConfiguration) ∧
    (∀ s : PortSpeed, (∃ t m, kPortTypeMapping s t = some m) →
        ∃ m, kPortTypeMapping s TransmitterTechnology.UNKNOWN = some m) := by
  decide

/-- C2 witness: the exact-pair clause applied at (HUNDREDG, COPPER). -/
theorem getDesiredInterfaceMode_exact_lookup_witness :
    getDesiredInterfaceMode PortSpeed.HUNDREDG TransmitterTechnology.COPPER =
      Except.ok OpennslPortIf.CR4 :=
  getDesiredInterfaceMode_exact_lookup.1 PortSpeed.HUNDREDG
    TransmitterTechnology.COPPER OpennslPortIf.CR4 (by decide)

/-- C3: rebinding a mirrored direction issues STOP against the previously
bound session strictly before START against the new session (the action
list is exactly [STOP old, START new]) and records the new binding;
rebinding to no session issues STOP only and clears the binding. -/
theorem updateMirror_stop_before_start :
    (∀ (m : PortMirrorState) (d : MirrorDirection) (a b : String),
        getMirror m d = some a →
        (updateMirror m (some b) d).2 =
          [{ name := a, action := MirrorAction.STOP, direction := d },
           { name := b, action := MirrorAction.START, direction := d }] ∧
        getMirror (updateMirror m (some b) d).1 d = some b) ∧
    (∀ (m : PortMirrorState) (d : MirrorDirection) (a : String),
        getMirror m d = some a →
        (updateMirror m none d).2 =
          [{ name := a, action := MirrorAction.STOP, direction := d }] ∧
        getMirror (updateMirror m none d).1 d = none) := by
  constructor
  · intro m d a b h
    cases d <;> simp_all [updateMirror, getMirror, setMirror, applyMirrorAction]
  · intro m d a h
    cases d <;> simp_all [updateMirror, getMirror, setMirror, applyMirrorAction]

/-- C3 witness: rebinding INGRESS from "A" to "B" issues exactly
[STOP "A", START "B"]; rebinding from "B" to none issues [STOP "B"] and
clears the binding. -/
theorem updateMirror_stop_before_start_witness :
    (updateMirror { ingressMirror := some "A", egressMirror := none }
        (some "B") MirrorDirection.INGRESS).2 =
      [{ name := "A", action := MirrorAction.STOP,
         direction := MirrorDirection.INGRESS },
       { name := "B", action := MirrorAction.START,
         direction := MirrorDirection.INGRESS }] ∧
    (updateMirror { ingressMirror := some "B", egressMirror := none }
        none MirrorDirection.INGRESS).2 =
      [{ name := "B", action := MirrorAction.STOP,
         direction := MirrorDirection.INGRESS }] ∧
    getMirror (updateMirror { ingressMirror := some "B", egressMirror := none }
        none MirrorDirection.INGRESS).1 MirrorDirection.INGRESS = none :=
  ⟨(updateMirror_stop_before_start.1
      { ingressMirror := some "A", egressMirror := none }
      MirrorDirection.INGRESS "A" "B" rfl).1,
   (updateMirror_stop_before_start.2
      { ingressMirror := some "B", egressMirror := none }
      MirrorDirection.INGRESS "B" rfl).1,
   (updateMirror_stop_before_start.2
      { ingressMirror := some "B", egressMirror := none }
      MirrorDirection.INGRESS "B" rfl).2⟩

theorem countP_map_mirror (p : HwWriteEvent → Bool)
    (hp : ∀ e, p (HwWriteEvent.mirror e) = false) (l : List MirrorEvent) :
    (l.map HwWriteEvent.mirror).countP p = 0 := by
  induction l with
  | nil => rfl
  | cons a t ih => simp [List.countP_cons, hp, ih]

theorem countP_map_vlanAdd (p : HwWriteEvent → Bool)
    (hp : ∀ v t, p (HwWriteEvent.vlanAdd v t) = false) (l : List (Nat × Bool)) :
    (l.map (fun v => HwWriteEvent.vlanAdd v.1 v.2)).countP p = 0 := by
  induction l with
  | nil => rfl
  | cons a t ih => simp [List.countP_cons, hp, ih]

theorem setIngressVlan_countP (p : HwWriteEvent → Bool)
    (hp : ∀ v, p (HwWriteEvent.ingressVlanSet v) = false) (sw : SwPort)
    (s : PortModelState) : (setIngressVlan sw s).2.countP p = 0 := by
  unfold setIngressVlan
  split <;> simp [List.countP_cons, hp]

theorem programTail_countP (p : HwWriteEvent → Bool)
    (hmirror : ∀ e, p (HwWriteEvent.mirror e) = false)
    (hpause : p HwWriteEvent.pauseSet = false)
    (htx : p HwWriteEvent.txSettingSet = false)
    (hsflow : p HwWriteEvent.sflowRatesSet = false)
    (hloop : p HwWriteEvent.loopbackModeSet = false)
    (sw : SwPort) (s : PortModelState) :
    (programTail sw s).2.countP p = 0 := by
  simp [programTail, portUpdateMirror, setPause, setTxSetting, setSflowRates,
        setLoopbackMode, List.countP_append, List.countP_cons,
        countP_map_mirror p hmirror, hpause, htx, hsflow, hloop]

theorem sflow_mem_programTail (sw : SwPort) (s : PortModelState) :
    HwWriteEvent.sflowRatesSet ∈ (programTail sw s).2 := by
  simp [programTail, portUpdateMirror, setPause, setTxSetting, setSflowRates,
        setLoopbackMode, List.mem_append]

theorem setInterfaceMode_counts (plat : PlatformModel) (sw : SwPort)
    (s s1 : PortModelState) (evs : List HwWriteEvent)
    (h : setInterfaceMode plat sw s = Except.ok (s1, evs)) :
    evs.countP isSpeedWrite = 0 ∧ evs.countP isInterfaceModeWrite ≤ 1 := by
  simp only [setInterfaceMode] at h
  split at h
  · exact Except.noConfusion h
  · split at h <;>
      · simp only [Except.ok.injEq, Prod.mk.injEq] at h
        obtain ⟨-, hevs⟩ := h
        subst hevs
        simp [List.countP_cons, isSpeedWrite, isInterfaceModeWrite]

theorem setSpeed_counts (plat : PlatformModel) (sw : SwPort)
    (s s1 : PortModelState) (evs : List HwWriteEvent)
    (h : setSpeed plat sw s = Except.ok (s1, evs)) :
    evs.countP isSpeedWrite ≤ 1 ∧ evs.countP isInterfaceModeWrite ≤ 1 := by
  simp only [setSpeed] at h
  split at h
  · cases hm : setInterfaceMode plat sw s with
    | error e => rw [hm] at h; exact Except.noConfusion h
    | ok r =>
        obtain ⟨ra, rb⟩ := r
        rw [hm] at h
        simp only [Except.ok.injEq, Prod.mk.injEq] at h
        obtain ⟨-, hevs⟩ := h
        subst hevs
        have hc := setInterfaceMode_counts plat sw s ra rb hm
        constructor <;>
          simp [List.countP_append, List.countP_cons, isSpeedWrite,
                isInterfaceModeWrite, hc.1, hc.2]
  · simp only [Except.ok.injEq, Prod.mk.injEq] at h
    obtain ⟨-, hevs⟩ := h
    subst hevs
    simp

theorem program_counts (plat : PlatformModel) (sw : SwPort)
    (s s1 : PortModelState) (evs : List HwWriteEvent)
    (h : program plat sw s = Except.ok (s1, evs)) :
    evs.countP isSpeedWrite ≤ 1 ∧ evs.countP isInterfaceModeWrite ≤ 1 ∧
      HwWriteEvent.sflowRatesSet ∈ evs := by
  simp only [program] at h
  split at h
  · simp only [Except.ok.injEq, Prod.mk.injEq] at h
    obtain ⟨-, hevs⟩ := h
    subst hevs
    refine ⟨?_, ?_, ?_⟩
    · simp [List.countP_append, setPortResource, List.countP_cons,
            isSpeedWrite, setIngressVlan_countP isSpeedWrite (fun _ => rfl),
            programTail_countP isSpeedWrite (fun _ => rfl) rfl rfl rfl rfl]
    · simp [List.countP_append, setPortResource, List.countP_cons,
            isInterfaceModeWrite,
            setIngressVlan_countP isInterfaceModeWrite (fun _ => rfl),
            programTail_countP isInterfaceModeWrite (fun _ => rfl) rfl rfl rfl rfl]
    · simp [List.mem_append, sflow_mem_programTail]
  · cases hm : setSpeed plat sw (setIngressVlan sw s).1 with
    | error e => rw [hm] at h; exact Except.noConfusion h
    | ok r =>
        obtain ⟨ra, rb⟩ := r
        rw [hm] at h
        simp only [Except.ok.injEq, Prod.mk.injEq] at h
        obtain ⟨-, hevs⟩ := h
        subst hevs
        have hc := setSpeed_counts plat sw (setIngressVlan sw s).1 ra rb hm
        refine ⟨?_, ?_, ?_⟩
        · simp [List.countP_append, setFEC, List.countP_cons, isSpeedWrite,
                setIngressVlan_countP isSpeedWrite (fun _ => rfl),
                programTail_countP isSpeedWrite (fun _ => rfl) rfl rfl rfl rfl,
                hc.1]
        · simp [List.countP_append, setFEC, List.countP_cons,
                isInterfaceModeWrite,
                setIngressVlan_countP isInterfaceModeWrite (fun _ => rfl),
                programTail_countP isInterfaceModeWrite (fun _ => rfl) rfl rfl rfl rfl,
                hc.2]
        · simp [List.mem_append, sflow_mem_programTail]

theorem enable_noop (plat : PlatformModel) (sw : SwPort) (s : PortModelState)
    (hs : s.hwEnabled = true) : enable plat sw s = Except.ok (s, []) := by
  unfold enable
  rw [hs]
  simp

theorem enable_ok_structure (plat : PlatformModel) (sw : SwPort)
    (s s1 : PortModelState) (evs : List HwWriteEvent)
    (hs : s.hwEnabled = false)
    (h : enable plat sw s = Except.ok (s1, evs)) :
    ∃ sp pe, program plat sw s = Except.ok (sp, pe) ∧
      s1 = { sp with hwEnabled := true } ∧
      evs = sw.vlans.map (fun v => HwWriteEvent.vlanAdd v.1 v.2) ++
            [HwWriteEvent.vlanMemberSet] ++ pe ++
            [HwWriteEvent.statEnableSet true, HwWriteEvent.portEnableSet true] := by
  simp only [enable] at h
  rw [hs] at h
  simp only [Bool.false_eq_true, if_false] at h
  cases hm : program plat sw s with
  | error e => rw [hm] at h; exact Except.noConfusion h
  | ok r =>
      obtain ⟨sp, pe⟩ := r
      rw [hm] at h
      simp only [Except.ok.injEq, Prod.mk.injEq] at h
      exact ⟨sp, pe, rfl, h.1.symm, h.2.symm⟩

/-- C4 counterexample: on a concrete disabled port, enable issues the
sampling-rate write (index 8 of the trace) strictly before enabling counter
collection (index 10), refuting the claimed "counter collection, then
sampling rate" order. -/
theorem enable_sampling_order_counterexample :
    enableTrace0.indexOf HwWriteEvent.sflowRatesSet = 8 ∧
    enableTrace0.indexOf (HwWriteEvent.statEnableSet true) = 10 ∧
    enableTrace0.indexOf HwWriteEvent.sflowRatesSet <
      enableTrace0.indexOf (HwWriteEvent.statEnableSet true) := by decide

/-- C4 (amended): enable reads the current hardware admin state and issues
no hardware writes when the port is already enabled; otherwise it issues,
in order, the VLAN-membership writes, the full attribute programming of
`program` — which itself contains the sampling-rate write, so the sampling
rate is programmed before (not after) counter collection — then counter
collection, and finally the admin-up flip as the last write. -/
theorem enable_write_order :
    (∀ (plat : PlatformModel) (sw : SwPort) (s : PortModelState),
        s.hwEnabled = true → enable plat sw s = Except.ok (s, [])) ∧
    (∀ (plat : PlatformModel) (sw : SwPort) (s s1 : PortModelState)
        (evs : List HwWriteEvent),
        s.hwEnabled = false → enable plat sw s = Except.ok (s1, evs) →
        ∃ sp pe, program plat sw s = Except.ok (sp, pe) ∧
          HwWriteEvent.sflowRatesSet ∈ pe ∧
          evs = sw.vlans.map (fun v => HwWriteEvent.vlanAdd v.1 v.2) ++
                [HwWriteEvent.vlanMemberSet] ++ pe ++
                [HwWriteEvent.statEnableSet true, HwWriteEvent.portEnableSet true]) := by
  constructor
  · exact enable_noop
  · intro plat sw s s1 evs hs h
    obtain ⟨sp, pe, hprog, -, hevs⟩ := enable_ok_structure plat sw s s1 evs hs h
    exact ⟨sp, pe, hprog, (program_counts plat sw s sp pe hprog).2.2, hevs⟩

/-- C4 witness: the no-write clause applied at the already-enabled state
st1, and the structured-order clause applied at the disabled fixture,
yielding the sampling write inside the trace. -/
theorem enable_write_order_witness :
    enable plat0 sw0 st1 = Except.ok (st1, []) ∧
    HwWriteEvent.sflowRatesSet ∈ enableTrace0 := by
  refine ⟨enable_write_order.1 plat0 sw0 st1 (by decide), ?_⟩
  obtain ⟨sp, pe, -, hmem, hevs⟩ :=
    enable_write_order.2 plat0 sw0 st0 st1 enableTrace0 (by decide) (by decide)
  rw [hevs]
  simp [List.mem_append, hmem]

/-- C5: when the current hardware speed equals the desired speed and the
port is up, setSpeed issues no hardware write at all (in particular neither
the interface-mode nor the speed write); and two successive enable calls
issue at most one disruptive speed write and at most one interface-mode
write in total. -/
theorem setSpeed_disruption_gate :
    (∀ (plat : PlatformModel) (sw : SwPort) (s : PortModelState),
        sw.portUp = true → s.hwSpeed = getDesiredPortSpeed plat sw →
        setSpeed plat sw s = Except.ok (s, [])) ∧
    (∀ (plat : PlatformModel) (sw : SwPort) (s s1 : PortModelState)
        (evs1 : List HwWriteEvent) (s2 : PortModelState)
        (evs2 : List HwWriteEvent),
        enable plat sw s = Except.ok (s1, evs1) →
        enable plat sw s1 = Except.ok (s2, evs2) →
        (evs1 ++ evs2).countP isSpeedWrite ≤ 1 ∧
        (evs1 ++ evs2).countP isInterfaceModeWrite ≤ 1) := by
  constructor
  · intro plat sw s h1 h2
    simp [setSpeed, h1, ← h2]
  · intro plat sw s s1 evs1 s2 evs2 h1 h2
    by_cases hs : s.hwEnabled = true
    · rw [enable_noop plat sw s hs] at h1
      simp only [Except.ok.injEq, Prod.mk.injEq] at h1
      obtain ⟨hs1, hevs1⟩ := h1
      subst hs1
      subst hevs1
      rw [enable_noop plat sw s hs] at h2
      simp only [Except.ok.injEq, Prod.mk.injEq] at h2
      obtain ⟨-, hevs2⟩ := h2
      subst hevs2
      simp
    · rw [Bool.not_eq_true] at hs
      obtain ⟨sp, pe, hprog, hstate, hevs⟩ :=
        enable_ok_structure plat sw s s1 evs1 hs h1
      have hs1 : s1.hwEnabled = true := by rw [hstate]
      rw [enable_noop plat sw s1 hs1] at h2
      simp only [Except.ok.injEq, Prod.mk.injEq] at h2
      obtain ⟨-, hevs2⟩ := h2
      subst hevs2
      have hc := program_counts plat sw s sp pe hprog
      subst hevs
      constructor
      · simp [List.countP_append, List.countP_cons, isSpeedWrite,
              countP_map_vlanAdd isSpeedWrite (fun _ _ => rfl), hc.1]
      · simp [List.countP_append, List.countP_cons, isInterfaceModeWrite,
              countP_map_vlanAdd isInterfaceModeWrite (fun _ _ => rfl), hc.2.1]

/-- The concrete up-port fixture used to witness the disruption gate. -/
def swUp : SwPort := { sw0 with portUp := true }

/-- C5 witness: the gate clause applied at an up port already running at the
desired speed (no writes), and the idempotence clause applied at the
concrete enable-twice run from st0. -/
theorem setSpeed_disruption_gate_witness :
    setSpeed plat0 swUp st1 = Except.ok (st1, []) ∧
    (enableTrace0 ++ []).countP isSpeedWrite ≤ 1 ∧
    (enableTrace0 ++ []).countP isInterfaceModeWrite ≤ 1 :=
  ⟨setSpeed_disruption_gate.1 plat0 swUp st1 (by decide) (by decide),
   setSpeed_disruption_gate.2 plat0 sw0 st0 st1 enableTrace0 st1 []
     (by decide) (by decide)⟩

theorem find?_filter_ne (l : List (Nat × SaiPortHandle)) (swId : Nat) :
    (l.filter (fun kv => kv.1 != swId)).find? (fun kv => kv.1 == swId) = none := by
  rw [List.find?_eq_none]
  intro x hx
  have hmem := List.mem_filter.mp hx
  simpa using hmem.2

/-- C6: removePort fails with MissingResource (state untouched, no teardown
step issued) when no handle exists; when a handle exists it succeeds,
issues exactly [erase reverse-index entry, erase handle] in that order, and
afterwards neither the handle nor any reverse-index entry for its adapter
key remains. -/
theorem removePort_spec :
    (∀ (st : SaiPortManagerState) (swId : Nat),
        getPortHandle st swId = none →
        removePort st swId = (some FbossErrorKind.MissingResource, st, [])) ∧
    (∀ (st : SaiPortManagerState) (swId : Nat) (h : SaiPortHandle),
        getPortHandle st swId = some h →
        (removePort st swId).1 = none ∧
        (removePort st swId).2.2 =
          [RemoveEvent.eraseReverseIndex h.adapterKey,
           RemoveEvent.eraseHandle swId] ∧
        getPortHandle (removePort st swId).2.1 swId = none ∧
        ((removePort st swId).2.1.portIds.all
            (fun kv => kv.1 != h.adapterKey)) = true) := by
  constructor
  · intro st swId hh
    unfold removePort
    rw [hh]
  · intro st swId h hh
    unfold removePort
    rw [hh]
    refine ⟨rfl, rfl, ?_, ?_⟩
    · simp [getPortHandle, find?_filter_ne]
    · rw [List.all_eq_true]
      intro x hx
      exact (List.mem_filter.mp hx).2

/-- The concrete registry fixture: one port (id 1, adapter key 10). -/
def reg0 : SaiPortManagerState :=
  { handles := [(1, { adapterKey := 10, bridgePort := 100, queues := [0] })],
    portIds := [(10, 1)] }

/-- C6 witness: removing the absent id 2 fails with MissingResource leaving
reg0 untouched; removing id 1 erases the reverse-index entry for adapter
key 10 strictly before releasing the handle, emptying the registry. -/
theorem removePort_spec_witness :
    removePort reg0 2 = (some FbossErrorKind.MissingResource, reg0, []) ∧
    (removePort reg0 1).2.2 =
      [RemoveEvent.eraseReverseIndex 10, RemoveEvent.eraseHandle 1] ∧
    getPortHandle (removePort reg0 1).2.1 1 = none :=
  ⟨removePort_spec.1 reg0 2 (by decide),
   (removePort_spec.2 reg0 1
      { adapterKey := 10, bridgePort := 100, queues := [0] } (by decide)).2.1,
   (removePort_spec.2 reg0 1
      { adapterKey := 10, bridgePort := 100, queues := [0] } (by decide)).2.2.1⟩

/-- C7: addPort on an id with an existing handle fails with
DuplicateResource, creates no backend resource (empty event list), leaves
the registry and reverse index exactly as they were, and the existing
handle is still registered afterwards. -/
theorem addPort_duplicate :
    ∀ (st : SaiPortManagerState) (swId adapterKey bridgePort : Nat)
      (queues : List Nat) (h : SaiPortHandle),
      getPortHandle st swId = some h →
      addPort st swId adapterKey bridgePort queues =
        (some FbossErrorKind.DuplicateResource, st, []) ∧
      getPortHandle (addPort st swId adapterKey bridgePort queues).2.1 swId =
        some h := by
  intro st swId k b q h hh
  unfold addPort
  rw [hh]
  exact ⟨rfl, hh⟩

/-- C7 witness: adding id 1 (already registered in reg0) fails with
DuplicateResource and leaves reg0 unmodified. -/
theorem addPort_duplicate_witness :
    addPort reg0 1 99 98 [] = (some FbossErrorKind.DuplicateResource, reg0, []) :=
  (addPort_duplicate reg0 1 99 98 []
      { adapterKey := 10, bridgePort := 100, queues := [0] } (by decide)).1

/-- C8: the presence probe downgrades every I2C failure to a boolean
"absent": isPresent is false exactly when the speculative read raises
I2cError and true when it succeeds (it never propagates the error, being a
total Bool-valued function), and scanPresence records ABSENT/PRESENT for
each module according to the same probe. -/
theorem isPresent_downgrades :
    (∀ (moduleRead : Nat → Except I2cError Nat) (m : Nat) (e : I2cError),
        moduleRead m = Except.error e → isPresent moduleRead m = false) ∧
    (∀ (moduleRead : Nat → Except I2cError Nat) (m v : Nat),
        moduleRead m = Except.ok v → isPresent moduleRead m = true) ∧
    (∀ (moduleRead : Nat → Except I2cError Nat)
        (ps : List (Nat × ModulePresence)),
        scanPresence moduleRead ps = ps.map (fun p =>
          (p.1, if isPresent moduleRead (p.1 + 1) then ModulePresence.PRESENT
                else ModulePresence.ABSENT))) := by
  refine ⟨?_, ?_, ?_⟩
  · intro mr m e h
    simp [isPresent, h]
  · intro mr m v h
    simp [isPresent, h]
  · intro mr ps
    unfold scanPresence
    apply List.map_congr_left
    intro p _
    cases hmr : mr (p.1 + 1) <;> simp [isPresent, hmr]

/-- The concrete probe environment: module 1 answers, every other read
raises I2cError. -/
def mrW : Nat → Except I2cError Nat := fun m =>
  if m = 1 then Except.ok 0 else Except.error I2cError.readFailure

/-- C8 witness: under mrW, module 1 is present and module 2 is absent. -/
theorem isPresent_downgrades_witness :
    isPresent mrW 1 = true ∧ isPresent mrW 2 = false :=
  ⟨isPresent_downgrades.2.1 mrW 1 0 (by decide),
   isPresent_downgrades.1 mrW 2 I2cError.readFailure (by decide)⟩

theorem runSteps_replicate_id (n : Nat) (s : HwPortStatsNPD) :
    runSteps (List.replicate n id) s = s := by
  induction n with
  | zero => rfl
  | succ m ih => simpa [runSteps, List.replicate_succ] using ih

/-- C9: a reader interleaved at any point of a poll observes either the
fully-old or the fully-new snapshot, never a mixture, and once the writer
has passed its single publication step the reader observes the new
snapshot. -/
theorem snapshot_publication_atomic :
    (∀ (buildSteps : Nat) (newSnap oldSnap : HwPortStatsNPD) (k : Nat),
        observeAt buildSteps newSnap oldSnap k = oldSnap ∨
        observeAt buildSteps newSnap oldSnap k = newSnap) ∧
    (∀ (buildSteps : Nat) (newSnap oldSnap : HwPortStatsNPD),
        observeAt buildSteps newSnap oldSnap (buildSteps + 1) = newSnap) := by
  have hobs : ∀ (b : Nat) (ns os : HwPortStatsNPD) (k : Nat),
      b + 1 ≤ k → observeAt b ns os k = ns := by
    intro b ns os k hk
    unfold observeAt pollWriterSteps
    rw [List.take_append_eq_append_take]
    have hb : (List.replicate b (id : HwPortStatsNPD → HwPortStatsNPD)).length = b :=
      List.length_replicate b _
    rw [List.take_of_length_le (by rw [hb]; omega)]
    rw [List.take_of_length_le (by simp [hb]; omega)]
    rw [runSteps, List.foldl_append]
    rfl
  constructor
  · intro b ns os k
    by_cases hk : k ≤ b
    · left
      unfold observeAt pollWriterSteps
      rw [List.take_append_of_le_length (by simpa using hk)]
      rw [List.take_replicate]
      exact runSteps_replicate_id _ os
    · right
      exact hobs b ns os k (by omega)
  · intro b ns os
    exact hobs b ns os (b + 1) (by omega)

/-- C10: MirrorTunnel equality and ordering ignore the stored udpPorts
field: any two tunnels agreeing on srcIp, dstIp, srcMac, dstMac, ttl and
greProtocol compare equal and are unordered in both directions, whatever
their udpPorts. -/
theorem mirrorTunnel_ignores_udpPorts :
    ∀ a b : MirrorTunnel,
      a.srcIp = b.srcIp → a.dstIp = b.dstIp → a.srcMac = b.srcMac →
      a.dstMac = b.dstMac → a.ttl = b.ttl → a.greProtocol = b.greProtocol →
      MirrorTunnel.eq a b = true ∧ MirrorTunnel.lt a b = false ∧
        MirrorTunnel.lt b a = false := by
  intro a b h1 h2 h3 h4 h5 h6
  refine ⟨?_, ?_, ?_⟩ <;>
    simp [MirrorTunnel.eq, MirrorTunnel.lt, h1, h2, h3, h4, h5, h6]

/-- The concrete tunnel fixture without UDP ports. -/
def tun1 : MirrorTunnel :=
  { srcIp := 1, dstIp := 2, srcMac := 3, dstMac := 4, udpPorts := none,
    ttl := 255, greProtocol := 0x88be }

/-- The same tunnel with sFlow-style UDP ports set. -/
def tun2 : MirrorTunnel := { tun1 with udpPorts := some (6545, 6343) }

/-- C10 witness: tun1 and tun2 differ only in udpPorts, compare equal, and
neither is less than the other. -/
theorem mirrorTunnel_ignores_udpPorts_witness :
    MirrorTunnel.eq tun1 tun2 = true ∧ MirrorTunnel.lt tun1 tun2 = false ∧
      MirrorTunnel.lt tun2 tun1 = false :=
  mirrorTunnel_ignores_udpPorts tun1 tun2 rfl rfl rfl rfl rfl rfl

end FbossModel
